import Mathlib

/-!
Shallow embedding of the proksee assembly decision-and-evaluation engine:
the taxonomic consensus resolver (`species_estimator.py`), the strategy
selector (`expert_system.py`) and the machine-learning normalization step
(`machine_learning_assembly_qc.py`).  Python floats are modelled as `ℚ`
(every comparison in the decision logic is an order comparison on decimal
constants), strings as `String`, and Python exceptions as `Except`.
-/

namespace Proksee

/-- A species: name and confidence (`proksee/species.py` collaborator;
its attributes are fixed by the spec's data model and by the accesses in
`species_estimator.py`). -/
structure Species where
  name : String
  confidence : ℚ
deriving Repr, DecidableEq

/-- One classifier hit record parsed into an estimation
(`proksee/estimation.py` collaborator; attributes fixed by the accesses in
`estimate_major_species`). -/
structure Estimation where
  species : Species
  identity : ℚ
  shared_hashes : ℚ
  median_multiplicity : ℚ
  full_taxonomy : String
deriving Repr, DecidableEq

/-- `MIN_SHARED_FRACTION = 0.90` in `estimate_major_species`. -/
def MIN_SHARED_FRACTION : ℚ := 0.90

/-- `MIN_IDENTITY = 0.90` in `estimate_major_species`. -/
def MIN_IDENTITY : ℚ := 0.90

/-- `MIN_MULTIPLICITY = 5` in `estimate_major_species`. -/
def MIN_MULTIPLICITY : ℚ := 5

/-- `estimate_major_species` from `species_estimator.py`: walk the
estimations in order; skip an estimation whose taxonomy starts with
"Viruses" when `ignore_viruses` is set; keep the species of an estimation
whose shared hashes, identity and median multiplicity meet the minima. -/
def estimate_major_species (estimations : List Estimation) (ignore_viruses : Bool) :
    List Species :=
  match estimations with
  | [] => []
  | estimation :: rest =>
    if ignore_viruses && estimation.full_taxonomy.startsWith "Viruses" then
      estimate_major_species rest ignore_viruses
    else if MIN_SHARED_FRACTION ≤ estimation.shared_hashes ∧
        MIN_IDENTITY ≤ estimation.identity ∧
        MIN_MULTIPLICITY ≤ estimation.median_multiplicity then
      estimation.species :: estimate_major_species rest ignore_viruses
    else
      estimate_major_species rest ignore_viruses

/-- The per-estimation keep decision of `estimate_major_species`: an
estimation survives iff it is not dropped by the virus rule and meets all
three minima. -/
def keepEstimation (ignore_viruses : Bool) (e : Estimation) : Bool :=
  if ignore_viruses && e.full_taxonomy.startsWith "Viruses" then false
  else decide (MIN_SHARED_FRACTION ≤ e.shared_hashes ∧
    MIN_IDENTITY ≤ e.identity ∧ MIN_MULTIPLICITY ≤ e.median_multiplicity)

/-- The filtering stage of `estimate_major_species`, before projecting each
surviving estimation to its species. -/
def majorFilter (ignore_viruses : Bool) (estimations : List Estimation) :
    List Estimation :=
  estimations.filter (keepEstimation ignore_viruses)

theorem estimate_major_species_eq_filter_map (estimations : List Estimation)
    (ignore_viruses : Bool) :
    estimate_major_species estimations ignore_viruses =
      (majorFilter ignore_viruses estimations).map Estimation.species := by
  induction estimations with
  | nil => rfl
  | cons e rest ih =>
    by_cases hv : ignore_viruses && e.full_taxonomy.startsWith "Viruses"
    · simp [estimate_major_species, hv, majorFilter, List.filter,
        keepEstimation, ih]
    · by_cases hk : MIN_SHARED_FRACTION ≤ e.shared_hashes ∧
        MIN_IDENTITY ≤ e.identity ∧ MIN_MULTIPLICITY ≤ e.median_multiplicity
      · simp [estimate_major_species, hv, hk, majorFilter, List.filter,
          keepEstimation, ih]
      · simp [estimate_major_species, hv, hk, majorFilter, List.filter,
          keepEstimation, ih]

/-- The pure core of `SpeciesEstimator.estimate_species` after RefSeq
Masher output has been parsed into estimations: compute the major species
(with `ignore_viruses` left at its default `True`), and if none were found
append the sentinel `Species("Unknown", 0.0)`. -/
def estimate_species_core (estimations : List Estimation) : List Species :=
  let species := estimate_major_species estimations true
  if species.length = 0 then species ++ [⟨"Unknown", 0⟩] else species

/-- `ExpertSystem.Evaluation` (nested class in `expert_system.py`): a
success flag and a plain-language report. -/
structure Evaluation where
  success : Bool
  report : String
deriving Repr, DecidableEq

/-- `ReadQuality` collaborator: the only attribute the expert system reads
is `q20_rate`. -/
structure ReadQuality where
  q20_rate : ℚ
deriving Repr, DecidableEq

/-- `AssemblyQuality` collaborator: the attributes the expert system reads
are `n50`, `num_contigs`, `l50` and `length`. -/
structure AssemblyQuality where
  n50 : ℚ
  num_contigs : ℚ
  l50 : ℚ
  length : ℚ
deriving Repr, DecidableEq

/-- Modelled from the spec: the Reference Statistics Store (§4.2,
`assembly_database.py` is not among the sources, only its caller
`expert_system.py` is).  It answers `contains(name)` and per-metric
quantile lookups `get_*_quantile(name, q)`; `expert_system.py` treats it
as exactly this opaque interface. -/
structure AssemblyDatabase where
  contains : String → Bool
  get_n50_quantile : String → ℚ → ℚ
  get_contigs_quantile : String → ℚ → ℚ
  get_l50_quantile : String → ℚ → ℚ
  get_length_quantile : String → ℚ → ℚ

/-- The two assembler kinds that `expert_system.py` constructs: the fast
`SkesaAssembler` and the thorough `SpadesAssembler`, each holding the
forward reads, reverse reads and output directory. -/
inductive Assembler where
  | skesa (forward reverse output_directory : String)
  | spades (forward reverse output_directory : String)
deriving Repr, DecidableEq

/-- `AssemblyStrategy` collaborator: proceed flag, chosen assembler and
report, exactly the triple `expert_system.py` constructs. -/
structure AssemblyStrategy where
  proceed : Bool
  assembler : Assembler
  report : String
deriving Repr, DecidableEq

/-- `ExpertSystem.__init__` state. -/
structure ExpertSystem where
  platform : String
  species : Species
  forward : String
  reverse : String
  output_directory : String
deriving Repr, DecidableEq

/-- `MIN_Q20_RATE = 0.60` in `create_fast_assembly_strategy`. -/
def MIN_Q20_RATE : ℚ := 0.60

/-- `ExpertSystem.create_fast_assembly_strategy`: a single q20-rate gate;
the fast (Skesa) assembler is selected either way. -/
def ExpertSystem.create_fast_assembly_strategy (es : ExpertSystem)
    (read_quality : ReadQuality) : AssemblyStrategy :=
  let pr : Bool × String :=
    if read_quality.q20_rate < MIN_Q20_RATE then
      (false,
        "The read quality is too low.\n" ++
        "The rate of Q20 bases is: " ++ toString read_quality.q20_rate ++ "\n")
    else
      (true, "The read quality is acceptable.\n")
  { proceed := pr.1
    assembler := .skesa es.forward es.reverse es.output_directory
    report := pr.2 }

/-- `ExpertSystem.evaluate_n50`: three-way comparison of the assembly N50
against the species' `[0.05, 0.95]` quantile band in the database. -/
def ExpertSystem.evaluate_n50 (es : ExpertSystem) (assembly_quality : AssemblyQuality)
    (assembly_database : AssemblyDatabase) : Evaluation :=
  let species_name := es.species.name
  let n50 := assembly_quality.n50
  let n50_05 := assembly_database.get_n50_quantile species_name 0.05
  let n50_95 := assembly_database.get_n50_quantile species_name 0.95
  if n50_05 ≤ n50 ∧ n50 ≤ n50_95 then
    { success := true
      report :=
        "The N50 is comparable to similar assemblies: " ++ toString n50 ++ "\n" ++
        "The acceptable N50 range is: [" ++ toString n50_05 ++ ", " ++
          toString n50_95 ++ "]\n" }
  else if n50 < n50_05 then
    { success := false
      report :=
        "The N50 is smaller than expected: " ++ toString n50 ++ "\n" ++
        "The N50 lower bound is: " ++ toString n50_05 ++ "\n" }
  else
    { success := false
      report :=
        "The N50 is larger than expected: " ++ toString n50 ++ "\n" ++
        "The N50 upper bound is: " ++ toString n50_95 ++ "\n" }

/-- `ExpertSystem.evaluate_num_contigs`: three-way comparison of the number
of contigs against the species' `[0.05, 0.95]` quantile band. -/
def ExpertSystem.evaluate_num_contigs (es : ExpertSystem)
    (assembly_quality : AssemblyQuality) (assembly_database : AssemblyDatabase) :
    Evaluation :=
  let species_name := es.species.name
  let num_contigs := assembly_quality.num_contigs
  let num_contigs_05 := assembly_database.get_contigs_quantile species_name 0.05
  let num_contigs_95 := assembly_database.get_contigs_quantile species_name 0.95
  if num_contigs_05 ≤ num_contigs ∧ num_contigs ≤ num_contigs_95 then
    { success := true
      report :=
        "The number of contigs is comparable to similar assemblies: " ++
          toString num_contigs ++ "\n" ++
        "The acceptable number of contigs range is: [" ++
          toString num_contigs_05 ++ ", " ++ toString num_contigs_95 ++ "]\n" }
  else if num_contigs < num_contigs_05 then
    { success := false
      report :=
        "The number of contigs is smaller than expected: " ++
          toString num_contigs ++ "\n" ++
        "The number of contigs lower bound is: " ++ toString num_contigs_05 ++ "\n" }
  else
    { success := false
      report :=
        "The number of contigs is larger than expected: " ++
          toString num_contigs ++ "\n" ++
        "The number of contigs upper bound is: " ++ toString num_contigs_95 ++ "\n" }

/-- `ExpertSystem.evaluate_l50`: three-way comparison of the assembly L50
against the species' `[0.05, 0.95]` quantile band. -/
def ExpertSystem.evaluate_l50 (es : ExpertSystem) (assembly_quality : AssemblyQuality)
    (assembly_database : AssemblyDatabase) : Evaluation :=
  let species_name := es.species.name
  let l50 := assembly_quality.l50
  let l50_05 := assembly_database.get_l50_quantile species_name 0.05
  let l50_95 := assembly_database.get_l50_quantile species_name 0.95
  if l50_05 ≤ l50 ∧ l50 ≤ l50_95 then
    { success := true
      report :=
        "The L50 is comparable to similar assemblies: " ++ toString l50 ++ "\n" ++
        "The acceptable L50 range is: [" ++ toString l50_05 ++ ", " ++
          toString l50_95 ++ "]\n" }
  else if l50 < l50_05 then
    { success := false
      report :=
        "The L50 is smaller than expected: " ++ toString l50 ++ "\n" ++
        "The L50 lower bound is: " ++ toString l50_05 ++ "\n" }
  else
    { success := false
      report :=
        "The L50 is larger than expected: " ++ toString l50 ++ "\n" ++
        "The L50 upper bound is: " ++ toString l50_95 ++ "\n" }

/-- `ExpertSystem.evaluate_length`: three-way comparison of the assembly
length against the species' `[0.05, 0.95]` quantile band. -/
def ExpertSystem.evaluate_length (es : ExpertSystem) (assembly_quality : AssemblyQuality)
    (assembly_database : AssemblyDatabase) : Evaluation :=
  let species_name := es.species.name
  let length := assembly_quality.length
  let length_05 := assembly_database.get_length_quantile species_name 0.05
  let length_95 := assembly_database.get_length_quantile species_name 0.95
  if length_05 ≤ length ∧ length ≤ length_95 then
    { success := true
      report :=
        "The assembly length is comparable to similar assemblies: " ++
          toString length ++ "\n" ++
        "The acceptable assembly length range is: [" ++ toString length_05 ++
          ", " ++ toString length_95 ++ "]\n" }
  else if length < length_05 then
    { success := false
      report :=
        "The assembly length is smaller than expected: " ++ toString length ++ "\n" ++
        "The assembly length lower bound is: " ++ toString length_05 ++ "\n" }
  else
    { success := false
      report :=
        "The assembly length is larger than expected: " ++ toString length ++ "\n" ++
        "The assembly length upper bound is: " ++ toString length_95 ++ "\n" }

/-- `ExpertSystem.create_full_assembly_strategy`: if the species is in the
database, run the four per-metric evaluations, append their reports to the
initial `"\n"` and AND their successes; otherwise fail with the
not-present report.  The thorough (Spades) assembler is selected either
way. -/
def ExpertSystem.create_full_assembly_strategy (es : ExpertSystem)
    (assembly_quality : AssemblyQuality) (assembly_database : AssemblyDatabase) :
    AssemblyStrategy :=
  let species_name := es.species.name
  let report := "\n"
  let pr : Bool × String :=
    if assembly_database.contains species_name then
      let n50_evaluation := es.evaluate_n50 assembly_quality assembly_database
      let contigs_evaluation := es.evaluate_num_contigs assembly_quality assembly_database
      let l50_evaluation := es.evaluate_l50 assembly_quality assembly_database
      let length_evaluation := es.evaluate_length assembly_quality assembly_database
      (n50_evaluation.success && contigs_evaluation.success &&
        l50_evaluation.success && length_evaluation.success,
       report ++ n50_evaluation.report ++ contigs_evaluation.report ++
        l50_evaluation.report ++ length_evaluation.report)
    else
      (false, report ++ es.species.name ++ " is not present in the database.\n")
  { proceed := pr.1
    assembler := .spades es.forward es.reverse es.output_directory
    report := pr.2 }

/-- Errors a Python dictionary or list lookup can raise in
`machine_learning_assembly_qc.py`: a missing species key (the spec's
`NotFoundError`) or a row too short for the attribute index. -/
inductive DBError where
  | notFound
  | indexOutOfRange
deriving Repr, DecidableEq

/-- `NormalizedDatabase`: a dictionary from species name to the row of
per-species reference values `[median log n50, log num_contigs, log l50,
log length, log coverage, gc_content]`.  The concrete rows come from the
static data file `species_median_log_metrics.txt`, which is data rather
than code, so the table is kept as an abstract finite map. -/
structure NormalizedDatabase where
  database : String → Option (List ℚ)

/-- Array-index constant `N50 = 0` of `NormalizedDatabase`. -/
def NormalizedDatabase.N50 : Nat := 0

/-- Array-index constant `NUM_CONTIGS = 1` of `NormalizedDatabase`. -/
def NormalizedDatabase.NUM_CONTIGS : Nat := 1

/-- Array-index constant `L50 = 2` of `NormalizedDatabase`. -/
def NormalizedDatabase.L50 : Nat := 2

/-- Array-index constant `LENGTH = 3` of `NormalizedDatabase`. -/
def NormalizedDatabase.LENGTH : Nat := 3

/-- Array-index constant `GC_CONTENT = 5` of `NormalizedDatabase`. -/
def NormalizedDatabase.GC_CONTENT : Nat := 5

/-- `NormalizedDatabase.contains`: membership of the species in the
dictionary. -/
def NormalizedDatabase.contains (db : NormalizedDatabase)
    (species_name : String) : Bool :=
  (db.database species_name).isSome

/-- `self.database[species_name][idx]` as an `Except`: a missing key is the
`notFound` error, a too-short row the `indexOutOfRange` error. -/
def NormalizedDatabase.lookupAttr (db : NormalizedDatabase)
    (species_name : String) (idx : Nat) : Except DBError ℚ :=
  match db.database species_name with
  | none => .error .notFound
  | some row =>
    match row.get? idx with
    | none => .error .indexOutOfRange
    | some v => .ok v

/-- `NormalizedDatabase.get_median_log_n50`. -/
def NormalizedDatabase.get_median_log_n50 (db : NormalizedDatabase)
    (species_name : String) : Except DBError ℚ :=
  db.lookupAttr species_name NormalizedDatabase.N50

/-- `NormalizedDatabase.get_median_log_num_contigs`. -/
def NormalizedDatabase.get_median_log_num_contigs (db : NormalizedDatabase)
    (species_name : String) : Except DBError ℚ :=
  db.lookupAttr species_name NormalizedDatabase.NUM_CONTIGS

/-- `NormalizedDatabase.get_median_log_l50`. -/
def NormalizedDatabase.get_median_log_l50 (db : NormalizedDatabase)
    (species_name : String) : Except DBError ℚ :=
  db.lookupAttr species_name NormalizedDatabase.L50

/-- `NormalizedDatabase.get_median_log_length`. -/
def NormalizedDatabase.get_median_log_length (db : NormalizedDatabase)
    (species_name : String) : Except DBError ℚ :=
  db.lookupAttr species_name NormalizedDatabase.LENGTH

/-- `NormalizedDatabase.get_median_gc_content`. -/
def NormalizedDatabase.get_median_gc_content (db : NormalizedDatabase)
    (species_name : String) : Except DBError ℚ :=
  db.lookupAttr species_name NormalizedDatabase.GC_CONTENT

/-- `MachineLearningAssemblyQC.__init__` state. -/
structure MachineLearningAssemblyQC where
  species : Species
  n50 : ℚ
  num_contigs : ℚ
  l50 : ℚ
  length : ℚ
  gc_content : ℚ
deriving Repr, DecidableEq

/-- `MachineLearningAssemblyQC.normalize_assembly_statistics`.  The source
computes `round(np.log10(x), 3)` for each of n50, num_contigs, l50 and
length; that floating-point transform is kept abstract as the parameter
`logRound3`, and the process-wide `NormalizedDatabase()` instance is the
parameter `db`.  Each attribute lookup can raise, in the source order:
n50, num_contigs, l50, length, gc_content. -/
def MachineLearningAssemblyQC.normalize_assembly_statistics
    (qc : MachineLearningAssemblyQC) (logRound3 : ℚ → ℚ)
    (db : NormalizedDatabase) : Except DBError (List ℚ) := do
  let input_logn50 := logRound3 qc.n50
  let normalized_n50 := input_logn50 - (← db.get_median_log_n50 qc.species.name)
  let input_lognumcontigs := logRound3 qc.num_contigs
  let normalized_numcontigs :=
    input_lognumcontigs - (← db.get_median_log_num_contigs qc.species.name)
  let input_logl50 := logRound3 qc.l50
  let normalized_l50 := input_logl50 - (← db.get_median_log_l50 qc.species.name)
  let input_loglength := logRound3 qc.length
  let normalized_length :=
    input_loglength - (← db.get_median_log_length qc.species.name)
  let normalized_gccontent :=
    qc.gc_content - (← db.get_median_gc_content qc.species.name)
  pure [normalized_n50, normalized_numcontigs, normalized_l50,
    normalized_length, normalized_gccontent]

theorem keepEstimation_eq (iv : Bool) (e : Estimation) :
    keepEstimation iv e =
      (!(iv && e.full_taxonomy.startsWith "Viruses") &&
        decide ((0.90 : ℚ) ≤ e.shared_hashes ∧ (0.90 : ℚ) ≤ e.identity ∧
          (5 : ℚ) ≤ e.median_multiplicity)) := by
  unfold keepEstimation MIN_SHARED_FRACTION MIN_IDENTITY MIN_MULTIPLICITY
  by_cases h : iv && e.full_taxonomy.startsWith "Viruses" <;> simp [h]

/-- C1: `estimate_major_species` returns exactly the species, in input
order, of the estimations that are not dropped by the virus rule (dropped
iff `ignore_viruses` is true and the taxonomy starts with "Viruses") and
that meet `shared_hashes ≥ 0.90`, `identity ≥ 0.90` and
`median_multiplicity ≥ 5`; and, in particular, an estimation with
`shared_hashes < 0.90` contributes nothing, whatever its identity and
multiplicity. -/
theorem estimate_major_species_characterization
    (estimations : List Estimation) (ignore_viruses : Bool) :
    estimate_major_species estimations ignore_viruses =
      (estimations.filter (fun e =>
        !(ignore_viruses && e.full_taxonomy.startsWith "Viruses") &&
        decide ((0.90 : ℚ) ≤ e.shared_hashes ∧ (0.90 : ℚ) ≤ e.identity ∧
          (5 : ℚ) ≤ e.median_multiplicity))).map Estimation.species ∧
    (∀ e : Estimation, e.shared_hashes < 0.90 →
      estimate_major_species (e :: estimations) ignore_viruses =
        estimate_major_species estimations ignore_viruses) := by
  constructor
  · rw [estimate_major_species_eq_filter_map, majorFilter]
    congr 1
    exact List.filter_congr fun e _ => keepEstimation_eq ignore_viruses e
  · intro e he
    by_cases hv : ignore_viruses && e.full_taxonomy.startsWith "Viruses"
    · simp [estimate_major_species, hv]
    · have hns : ¬ (MIN_SHARED_FRACTION ≤ e.shared_hashes ∧
          MIN_IDENTITY ≤ e.identity ∧ MIN_MULTIPLICITY ≤ e.median_multiplicity) := by
        rintro ⟨hs, -, -⟩
        rw [MIN_SHARED_FRACTION] at hs
        linarith
      simp [estimate_major_species, hv, hns]

/-- A concrete instance of the C1 theorem: an estimation with
`shared_hashes = 0.5` is excluded even with perfect identity and high
multiplicity. -/
theorem estimate_major_species_characterization_witness :
    ((⟨⟨"Klebsiella pneumoniae", 1⟩, 1, 0.5, 20, "Bacteria"⟩ :
        Estimation).shared_hashes < 0.90) ∧
    estimate_major_species
      [⟨⟨"Klebsiella pneumoniae", 1⟩, 1, 0.5, 20, "Bacteria"⟩] true =
      estimate_major_species [] true :=
  ⟨by norm_num,
    (estimate_major_species_characterization [] true).2
      ⟨⟨"Klebsiella pneumoniae", 1⟩, 1, 0.5, 20, "Bacteria"⟩ (by norm_num)⟩

/-- C9: the majority-species filter is idempotent: filtering the
already-filtered estimation list changes nothing, and consequently
`estimate_major_species` on the filtered list returns the same species
list as on the original list. -/
theorem estimate_major_species_idempotent
    (estimations : List Estimation) (ignore_viruses : Bool) :
    majorFilter ignore_viruses (majorFilter ignore_viruses estimations) =
      majorFilter ignore_viruses estimations ∧
    estimate_major_species (majorFilter ignore_viruses estimations) ignore_viruses =
      estimate_major_species estimations ignore_viruses := by
  have hfix : majorFilter ignore_viruses (majorFilter ignore_viruses estimations) =
      majorFilter ignore_viruses estimations := by
    unfold majorFilter
    rw [List.filter_filter]
    exact List.filter_congr fun e _ => by
      by_cases h : keepEstimation ignore_viruses e <;> simp [h]
  refine ⟨hfix, ?_⟩
  rw [estimate_major_species_eq_filter_map, estimate_major_species_eq_filter_map, hfix]

/-- C6: when the majority-species filter leaves nothing, the species
estimation core returns exactly the sentinel `Species("Unknown", 0.0)`. -/
theorem estimate_species_core_unknown (estimations : List Estimation)
    (h : estimate_major_species estimations true = []) :
    estimate_species_core estimations = [⟨"Unknown", 0⟩] := by
  unfold estimate_species_core
  simp [h]

/-- A concrete instance of the C6 theorem: a single low-evidence
estimation leaves the filter empty and yields the Unknown sentinel. -/
theorem estimate_species_core_unknown_witness :
    estimate_species_core [⟨⟨"Escherichia coli", 1⟩, 0.95, 0.2, 10, "Bacteria"⟩] =
      [⟨"Unknown", 0⟩] :=
  estimate_species_core_unknown
    [⟨⟨"Escherichia coli", 1⟩, 0.95, 0.2, 10, "Bacteria"⟩] (by
      have hlow : ¬ (MIN_SHARED_FRACTION ≤ (0.2 : ℚ) ∧ MIN_IDENTITY ≤ (0.95 : ℚ) ∧
          MIN_MULTIPLICITY ≤ (10 : ℚ)) := by
        rintro ⟨hs, -, -⟩
        rw [MIN_SHARED_FRACTION] at hs
        norm_num at hs
      simp [estimate_major_species, hlow])

/-- C2: each per-metric heuristic comparison is a three-way branch on the
species' inclusive `[0.05-quantile, 0.95-quantile]` band: a value inside
the band (bound equality included) succeeds with the "comparable to
similar assemblies" report giving the band; a value below the lower bound
fails with the "smaller than expected" report citing the lower bound; a
value above the upper bound fails (for an ordered band, as actual
quantiles are) with the "larger than expected" report citing the upper
bound.  Stated for all four metrics: N50, number of contigs, L50 and
length. -/
theorem heuristic_band_three_way (es : ExpertSystem) (aq : AssemblyQuality)
    (db : AssemblyDatabase) :
    ((db.get_n50_quantile es.species.name 0.05 ≤ aq.n50 ∧
        aq.n50 ≤ db.get_n50_quantile es.species.name 0.95) →
      es.evaluate_n50 aq db =
        ⟨true,
          "The N50 is comparable to similar assemblies: " ++ toString aq.n50 ++
            "\n" ++ "The acceptable N50 range is: [" ++
            toString (db.get_n50_quantile es.species.name 0.05) ++ ", " ++
            toString (db.get_n50_quantile es.species.name 0.95) ++ "]\n"⟩) ∧
    (aq.n50 < db.get_n50_quantile es.species.name 0.05 →
      es.evaluate_n50 aq db =
        ⟨false,
          "The N50 is smaller than expected: " ++ toString aq.n50 ++ "\n" ++
            "The N50 lower bound is: " ++
            toString (db.get_n50_quantile es.species.name 0.05) ++ "\n"⟩) ∧
    ((db.get_n50_quantile es.species.name 0.95 < aq.n50 ∧
        db.get_n50_quantile es.species.name 0.05 ≤
          db.get_n50_quantile es.species.name 0.95) →
      es.evaluate_n50 aq db =
        ⟨false,
          "The N50 is larger than expected: " ++ toString aq.n50 ++ "\n" ++
            "The N50 upper bound is: " ++
            toString (db.get_n50_quantile es.species.name 0.95) ++ "\n"⟩) ∧
    ((db.get_contigs_quantile es.species.name 0.05 ≤ aq.num_contigs ∧
        aq.num_contigs ≤ db.get_contigs_quantile es.species.name 0.95) →
      es.evaluate_num_contigs aq db =
        ⟨true,
          "The number of contigs is comparable to similar assemblies: " ++
            toString aq.num_contigs ++ "\n" ++
            "The acceptable number of contigs range is: [" ++
            toString (db.get_contigs_quantile es.species.name 0.05) ++ ", " ++
            toString (db.get_contigs_quantile es.species.name 0.95) ++ "]\n"⟩) ∧
    (aq.num_contigs < db.get_contigs_quantile es.species.name 0.05 →
      es.evaluate_num_contigs aq db =
        ⟨false,
          "The number of contigs is smaller than expected: " ++
            toString aq.num_contigs ++ "\n" ++
            "The number of contigs lower bound is: " ++
            toString (db.get_contigs_quantile es.species.name 0.05) ++ "\n"⟩) ∧
    ((db.get_contigs_quantile es.species.name 0.95 < aq.num_contigs ∧
        db.get_contigs_quantile es.species.name 0.05 ≤
          db.get_contigs_quantile es.species.name 0.95) →
      es.evaluate_num_contigs aq db =
        ⟨false,
          "The number of contigs is larger than expected: " ++
            toString aq.num_contigs ++ "\n" ++
            "The number of contigs upper bound is: " ++
            toString (db.get_contigs_quantile es.species.name 0.95) ++ "\n"⟩) ∧
    ((db.get_l50_quantile es.species.name 0.05 ≤ aq.l50 ∧
        aq.l50 ≤ db.get_l50_quantile es.species.name 0.95) →
      es.evaluate_l50 aq db =
        ⟨true,
          "The L50 is comparable to similar assemblies: " ++ toString aq.l50 ++
            "\n" ++ "The acceptable L50 range is: [" ++
            toString (db.get_l50_quantile es.species.name 0.05) ++ ", " ++
            toString (db.get_l50_quantile es.species.name 0.95) ++ "]\n"⟩) ∧
    (aq.l50 < db.get_l50_quantile es.species.name 0.05 →
      es.evaluate_l50 aq db =
        ⟨false,
          "The L50 is smaller than expected: " ++ toString aq.l50 ++ "\n" ++
            "The L50 lower bound is: " ++
            toString (db.get_l50_quantile es.species.name 0.05) ++ "\n"⟩) ∧
    ((db.get_l50_quantile es.species.name 0.95 < aq.l50 ∧
        db.get_l50_quantile es.species.name 0.05 ≤
          db.get_l50_quantile es.species.name 0.95) →
      es.evaluate_l50 aq db =
        ⟨false,
          "The L50 is larger than expected: " ++ toString aq.l50 ++ "\n" ++
            "The L50 upper bound is: " ++
            toString (db.get_l50_quantile es.species.name 0.95) ++ "\n"⟩) ∧
    ((db.get_length_quantile es.species.name 0.05 ≤ aq.length ∧
        aq.length ≤ db.get_length_quantile es.species.name 0.95) →
      es.evaluate_length aq db =
        ⟨true,
          "The assembly length is comparable to similar assemblies: " ++
            toString aq.length ++ "\n" ++
            "The acceptable assembly length range is: [" ++
            toString (db.get_length_quantile es.species.name 0.05) ++ ", " ++
            toString (db.get_length_quantile es.species.name 0.95) ++ "]\n"⟩) ∧
    (aq.length < db.get_length_quantile es.species.name 0.05 →
      es.evaluate_length aq db =
        ⟨false,
          "The assembly length is smaller than expected: " ++
            toString aq.length ++ "\n" ++
            "The assembly length lower bound is: " ++
            toString (db.get_length_quantile es.species.name 0.05) ++ "\n"⟩) ∧
    ((db.get_length_quantile es.species.name 0.95 < aq.length ∧
        db.get_length_quantile es.species.name 0.05 ≤
          db.get_length_quantile es.species.name 0.95) →
      es.evaluate_length aq db =
        ⟨false,
          "The assembly length is larger than expected: " ++
            toString aq.length ++ "\n" ++
            "The assembly length upper bound is: " ++
            toString (db.get_length_quantile es.species.name 0.95) ++ "\n"⟩) := by
  refine ⟨?_, ?_, ?_, ?_, ?_, ?_, ?_, ?_, ?_, ?_, ?_, ?_⟩ <;>
    (intro h
     simp only [ExpertSystem.evaluate_n50, ExpertSystem.evaluate_num_contigs,
       ExpertSystem.evaluate_l50, ExpertSystem.evaluate_length]
     split_ifs with h1 h2 <;>
       first
       | rfl
       | exact absurd h h1
       | exact absurd h1.1 (not_le.mpr h)
       | exact absurd h1.2 (not_le.mpr h.1)
       | exact absurd h h2
       | exact absurd h2 (not_lt.mpr (h.2.trans h.1.le)))

/-- Fixture: an expert system instance for concrete evaluations. -/
def exampleExpertSystem : ExpertSystem :=
  ⟨"Illumina", ⟨"Listeria monocytogenes", 0.99⟩, "fwd.fastq", "rev.fastq", "out"⟩

/-- Fixture: a database whose quantile bands are `[5000, 15000]` for N50,
`[10, 100]` for contigs, `[1, 8]` for L50 and `[2000000, 3500000]` for
length, for every species. -/
def exampleDatabase : AssemblyDatabase where
  contains := fun _ => true
  get_n50_quantile := fun _ q => if q = 0.05 then 5000 else 15000
  get_contigs_quantile := fun _ q => if q = 0.05 then 10 else 100
  get_l50_quantile := fun _ q => if q = 0.05 then 1 else 8
  get_length_quantile := fun _ q => if q = 0.05 then 2000000 else 3500000

/-- Fixture: an assembly whose N50 sits exactly on the lower bound, whose
contig count is below band, whose L50 is above band and whose length is
inside the band of `exampleDatabase`. -/
def exampleQuality : AssemblyQuality := ⟨5000, 5, 20, 3000000⟩

/-- A concrete instance of the C2 theorem: N50 equal to the lower bound is
a success (inclusive band), contigs below band and L50 above band fail,
length inside the band succeeds. -/
theorem heuristic_band_three_way_witness :
    (exampleExpertSystem.evaluate_n50 exampleQuality exampleDatabase).success = true ∧
    (exampleExpertSystem.evaluate_num_contigs exampleQuality exampleDatabase).success
      = false ∧
    (exampleExpertSystem.evaluate_l50 exampleQuality exampleDatabase).success = false ∧
    (exampleExpertSystem.evaluate_length exampleQuality exampleDatabase).success
      = true := by
  have h := heuristic_band_three_way exampleExpertSystem exampleQuality exampleDatabase
  obtain ⟨h1, -, -, -, h2, -, -, -, h3, h4, -, -⟩ := h
  refine ⟨?_, ?_, ?_, ?_⟩
  · rw [h1 ⟨by norm_num [exampleDatabase, exampleQuality, exampleExpertSystem],
      by norm_num [exampleDatabase, exampleQuality, exampleExpertSystem]⟩]
  · rw [h2 (by norm_num [exampleDatabase, exampleQuality, exampleExpertSystem])]
  · rw [h3 ⟨by norm_num [exampleDatabase, exampleQuality, exampleExpertSystem],
      by norm_num [exampleDatabase, exampleQuality, exampleExpertSystem]⟩]
  · rw [h4 ⟨by norm_num [exampleDatabase, exampleQuality, exampleExpertSystem],
      by norm_num [exampleDatabase, exampleQuality, exampleExpertSystem]⟩]

theorem create_full_contains_eq (es : ExpertSystem) (aq : AssemblyQuality)
    (db : AssemblyDatabase) (h : db.contains es.species.name = true) :
    es.create_full_assembly_strategy aq db =
      ⟨(es.evaluate_n50 aq db).success && (es.evaluate_num_contigs aq db).success &&
        (es.evaluate_l50 aq db).success && (es.evaluate_length aq db).success,
       .spades es.forward es.reverse es.output_directory,
       "\n" ++ (es.evaluate_n50 aq db).report ++ (es.evaluate_num_contigs aq db).report ++
         (es.evaluate_l50 aq db).report ++ (es.evaluate_length aq db).report⟩ := by
  simp only [ExpertSystem.create_full_assembly_strategy, h]
  rw [if_pos trivial]

theorem create_full_absent_eq (es : ExpertSystem) (aq : AssemblyQuality)
    (db : AssemblyDatabase) (h : db.contains es.species.name = false) :
    es.create_full_assembly_strategy aq db =
      ⟨false, .spades es.forward es.reverse es.output_directory,
        "\n" ++ es.species.name ++ " is not present in the database.\n"⟩ := by
  simp only [ExpertSystem.create_full_assembly_strategy, h]
  rw [if_neg Bool.false_ne_true]

/-- C3 counterexample: for a concrete species, assembly and database the
full-strategy report is NOT the plain concatenation of the four
per-metric reports — the source initializes the report with a newline
before appending them. -/
theorem create_full_report_not_plain_concat :
    (exampleExpertSystem.create_full_assembly_strategy exampleQuality
        exampleDatabase).report ≠
      ((exampleExpertSystem.evaluate_n50 exampleQuality exampleDatabase).report ++
       (exampleExpertSystem.evaluate_num_contigs exampleQuality exampleDatabase).report ++
       (exampleExpertSystem.evaluate_l50 exampleQuality exampleDatabase).report ++
       (exampleExpertSystem.evaluate_length exampleQuality exampleDatabase).report) := by
  intro hEq
  rw [create_full_contains_eq exampleExpertSystem exampleQuality exampleDatabase rfl] at hEq
  have hlen := congrArg String.length hEq
  simp only [String.length_append] at hlen
  rw [show ("\n" : String).length = 1 from rfl] at hlen
  omega

/-- C3 (amended): when the database contains the species, the full
assembly strategy runs all four metric evaluations, its report is a
newline followed by the concatenation of the four per-metric reports in
order N50, contigs, L50, length, its proceed flag is the conjunction of
the four success flags, and the thorough (Spades) assembler is chosen. -/
theorem create_full_strategy_aggregate (es : ExpertSystem) (aq : AssemblyQuality)
    (db : AssemblyDatabase) (h : db.contains es.species.name = true) :
    es.create_full_assembly_strategy aq db =
      ⟨(es.evaluate_n50 aq db).success && (es.evaluate_num_contigs aq db).success &&
        (es.evaluate_l50 aq db).success && (es.evaluate_length aq db).success,
       .spades es.forward es.reverse es.output_directory,
       "\n" ++ (es.evaluate_n50 aq db).report ++ (es.evaluate_num_contigs aq db).report ++
         (es.evaluate_l50 aq db).report ++ (es.evaluate_length aq db).report⟩ :=
  create_full_contains_eq es aq db h

/-- A concrete instance of the C3 amended theorem: proceed is exactly the
conjunction of the four per-metric success flags and the Spades assembler
is returned. -/
theorem create_full_strategy_aggregate_witness :
    (exampleExpertSystem.create_full_assembly_strategy exampleQuality
        exampleDatabase).proceed =
      ((exampleExpertSystem.evaluate_n50 exampleQuality exampleDatabase).success &&
       (exampleExpertSystem.evaluate_num_contigs exampleQuality exampleDatabase).success &&
       (exampleExpertSystem.evaluate_l50 exampleQuality exampleDatabase).success &&
       (exampleExpertSystem.evaluate_length exampleQuality exampleDatabase).success) ∧
    (exampleExpertSystem.create_full_assembly_strategy exampleQuality
        exampleDatabase).assembler = .spades "fwd.fastq" "rev.fastq" "out" := by
  rw [create_full_strategy_aggregate exampleExpertSystem exampleQuality
    exampleDatabase rfl]
  exact ⟨rfl, rfl⟩

/-- C4: when the database does not contain the species, the full assembly
strategy is exactly `proceed = false`, the thorough (Spades) assembler,
and the not-present report — and the result does not depend on the
database's quantile functions at all (no per-metric comparison is
performed or reported). -/
theorem create_full_strategy_absent (es : ExpertSystem) (aq : AssemblyQuality)
    (db : AssemblyDatabase) (h : db.contains es.species.name = false) :
    es.create_full_assembly_strategy aq db =
      ⟨false, .spades es.forward es.reverse es.output_directory,
        "\n" ++ es.species.name ++ " is not present in the database.\n"⟩ ∧
    (∀ db2 : AssemblyDatabase, db2.contains es.species.name = false →
      es.create_full_assembly_strategy aq db2 =
        es.create_full_assembly_strategy aq db) := by
  refine ⟨create_full_absent_eq es aq db h, fun db2 h2 => ?_⟩
  rw [create_full_absent_eq es aq db h, create_full_absent_eq es aq db2 h2]

/-- Fixture: a database that contains no species; its quantile functions
are irrelevant. -/
def absentDatabase : AssemblyDatabase where
  contains := fun _ => false
  get_n50_quantile := fun _ _ => 0
  get_contigs_quantile := fun _ _ => 0
  get_l50_quantile := fun _ _ => 0
  get_length_quantile := fun _ _ => 0

/-- A concrete instance of the C4 theorem: an absent species yields
`proceed = false`, the Spades assembler and the not-present report. -/
theorem create_full_strategy_absent_witness :
    exampleExpertSystem.create_full_assembly_strategy exampleQuality absentDatabase =
      ⟨false, .spades "fwd.fastq" "rev.fastq" "out",
        "\nListeria monocytogenes is not present in the database.\n"⟩ := by
  rw [(create_full_strategy_absent exampleExpertSystem exampleQuality
    absentDatabase rfl).1]
  rfl

/-- C5: the fast assembly strategy is a single q20-rate gate: a rate below
0.60 yields `proceed = false` with the too-low report citing the rate; a
rate of at least 0.60 yields `proceed = true` with the acceptable report;
the fast (Skesa) assembler is selected in both cases. -/
theorem create_fast_strategy_gate (es : ExpertSystem) (rq : ReadQuality) :
    (rq.q20_rate < 0.60 →
      es.create_fast_assembly_strategy rq =
        ⟨false, .skesa es.forward es.reverse es.output_directory,
          "The read quality is too low.\n" ++ "The rate of Q20 bases is: " ++
            toString rq.q20_rate ++ "\n"⟩) ∧
    (0.60 ≤ rq.q20_rate →
      es.create_fast_assembly_strategy rq =
        ⟨true, .skesa es.forward es.reverse es.output_directory,
          "The read quality is acceptable.\n"⟩) := by
  constructor
  · intro h
    simp only [ExpertSystem.create_fast_assembly_strategy, MIN_Q20_RATE]
    rw [if_pos h]
  · intro h
    simp only [ExpertSystem.create_fast_assembly_strategy, MIN_Q20_RATE]
    rw [if_neg (not_lt.mpr h)]

/-- A concrete instance of the C5 theorem: a q20 rate of 0.5 fails the
gate with the too-low report citing the rate, and a rate of 0.8 passes;
Skesa is selected in both cases. -/
theorem create_fast_strategy_gate_witness :
    exampleExpertSystem.create_fast_assembly_strategy ⟨0.5⟩ =
      ⟨false, .skesa "fwd.fastq" "rev.fastq" "out",
        "The read quality is too low.\n" ++ "The rate of Q20 bases is: " ++
          toString (0.5 : ℚ) ++ "\n"⟩ ∧
    exampleExpertSystem.create_fast_assembly_strategy ⟨0.8⟩ =
      ⟨true, .skesa "fwd.fastq" "rev.fastq" "out",
        "The read quality is acceptable.\n"⟩ :=
  ⟨(create_fast_strategy_gate exampleExpertSystem ⟨0.5⟩).1 (by norm_num),
   (create_fast_strategy_gate exampleExpertSystem ⟨0.8⟩).2 (by norm_num)⟩

/-- C10: the per-metric comparisons never validate the band: when the
lower bound is strictly greater than the upper bound, every value fails
the comparison, for each of the four metrics. -/
theorem heuristic_inverted_band_never_succeeds (es : ExpertSystem)
    (aq : AssemblyQuality) (db : AssemblyDatabase) :
    (db.get_n50_quantile es.species.name 0.95 <
        db.get_n50_quantile es.species.name 0.05 →
      (es.evaluate_n50 aq db).success = false) ∧
    (db.get_contigs_quantile es.species.name 0.95 <
        db.get_contigs_quantile es.species.name 0.05 →
      (es.evaluate_num_contigs aq db).success = false) ∧
    (db.get_l50_quantile es.species.name 0.95 <
        db.get_l50_quantile es.species.name 0.05 →
      (es.evaluate_l50 aq db).success = false) ∧
    (db.get_length_quantile es.species.name 0.95 <
        db.get_length_quantile es.species.name 0.05 →
      (es.evaluate_length aq db).success = false) := by
  refine ⟨?_, ?_, ?_, ?_⟩ <;>
    (intro h
     simp only [ExpertSystem.evaluate_n50, ExpertSystem.evaluate_num_contigs,
       ExpertSystem.evaluate_l50, ExpertSystem.evaluate_length]
     split_ifs with h1 h2 <;>
       first
       | rfl
       | exact absurd (h1.1.trans h1.2) (not_le.mpr h))

/-- Fixture: a database whose bands are inverted (lower bound 100 above
upper bound 50) for every metric and species. -/
def invertedDatabase : AssemblyDatabase where
  contains := fun _ => true
  get_n50_quantile := fun _ q => if q = 0.05 then 100 else 50
  get_contigs_quantile := fun _ q => if q = 0.05 then 100 else 50
  get_l50_quantile := fun _ q => if q = 0.05 then 100 else 50
  get_length_quantile := fun _ q => if q = 0.05 then 100 else 50

/-- A concrete instance of the C10 theorem: with the inverted bands of
`invertedDatabase`, all four comparisons fail on `exampleQuality`. -/
theorem heuristic_inverted_band_never_succeeds_witness :
    (exampleExpertSystem.evaluate_n50 exampleQuality invertedDatabase).success
      = false ∧
    (exampleExpertSystem.evaluate_num_contigs exampleQuality invertedDatabase).success
      = false ∧
    (exampleExpertSystem.evaluate_l50 exampleQuality invertedDatabase).success
      = false ∧
    (exampleExpertSystem.evaluate_length exampleQuality invertedDatabase).success
      = false := by
  have h := heuristic_inverted_band_never_succeeds exampleExpertSystem
    exampleQuality invertedDatabase
  exact ⟨h.1 (by norm_num [invertedDatabase, exampleExpertSystem]),
    h.2.1 (by norm_num [invertedDatabase, exampleExpertSystem]),
    h.2.2.1 (by norm_num [invertedDatabase, exampleExpertSystem]),
    h.2.2.2 (by norm_num [invertedDatabase, exampleExpertSystem])⟩

@[simp] theorem exceptBindOk {α β ε : Type} (x : α) (f : α → Except ε β) :
    (Except.ok x >>= f) = f x := rfl

@[simp] theorem exceptBindError {α β ε : Type} (e : ε) (f : α → Except ε β) :
    ((Except.error e : Except ε α) >>= f) = Except.error e := rfl

@[simp] theorem exceptMapOk {α β ε : Type} (f : α → β) (x : α) :
    (f <$> (Except.ok x : Except ε α)) = Except.ok (f x) := rfl

@[simp] theorem exceptMapError {α β ε : Type} (f : α → β) (e : ε) :
    (f <$> (Except.error e : Except ε α)) = (Except.error e : Except ε β) := rfl

/-- C7: if the species' stored reference row matches the log-transformed
input metrics exactly (entries 0–3 equal the rounded log10 of n50,
num_contigs, l50 and length, and entry 5 equals the raw GC content), then
normalization returns the zero 5-dimensional feature vector. -/
theorem normalize_zero_vector (qc : MachineLearningAssemblyQC)
    (logRound3 : ℚ → ℚ) (db : NormalizedDatabase) (row : List ℚ)
    (hrow : db.database qc.species.name = some row)
    (e0 : row[0]? = some (logRound3 qc.n50))
    (e1 : row[1]? = some (logRound3 qc.num_contigs))
    (e2 : row[2]? = some (logRound3 qc.l50))
    (e3 : row[3]? = some (logRound3 qc.length))
    (e5 : row[5]? = some qc.gc_content) :
    qc.normalize_assembly_statistics logRound3 db = .ok [0, 0, 0, 0, 0] := by
  simp [MachineLearningAssemblyQC.normalize_assembly_statistics,
    NormalizedDatabase.get_median_log_n50,
    NormalizedDatabase.get_median_log_num_contigs,
    NormalizedDatabase.get_median_log_l50,
    NormalizedDatabase.get_median_log_length,
    NormalizedDatabase.get_median_gc_content,
    NormalizedDatabase.lookupAttr, NormalizedDatabase.N50,
    NormalizedDatabase.NUM_CONTIGS, NormalizedDatabase.L50,
    NormalizedDatabase.LENGTH, NormalizedDatabase.GC_CONTENT,
    hrow, e0, e1, e2, e3, e5]

/-- Fixture: an ML quality record whose metrics will be compared against
`exampleNormalizedDatabase`. -/
def exampleMLQuality : MachineLearningAssemblyQC :=
  ⟨⟨"Listeria monocytogenes", 0.99⟩, 3.7, 1.3, 0.7, 6.5, 0.38⟩

/-- Fixture: a reference median table holding exactly one species, whose
row coincides with the transformed metrics of `exampleMLQuality` (the
unused coverage entry is 1.5). -/
def exampleNormalizedDatabase : NormalizedDatabase :=
  ⟨fun s => if s = "Listeria monocytogenes" then
    some [3.7, 1.3, 0.7, 6.5, 1.5, 0.38] else none⟩

/-- A concrete instance of the C7 theorem: with the identity as log
transform and a matching reference row, normalization yields the zero
vector. -/
theorem normalize_zero_vector_witness :
    exampleMLQuality.normalize_assembly_statistics id exampleNormalizedDatabase =
      .ok [0, 0, 0, 0, 0] :=
  normalize_zero_vector exampleMLQuality id exampleNormalizedDatabase
    [3.7, 1.3, 0.7, 6.5, 1.5, 0.38]
    (by simp [exampleNormalizedDatabase, exampleMLQuality])
    rfl rfl rfl rfl rfl

/-- C8: a species absent from the reference median table is reported not
contained, every median accessor fails with the not-found error, and
normalization produces no feature vector but the same error — there is no
silent zero-centered default. -/
theorem ml_missing_species_fails (qc : MachineLearningAssemblyQC)
    (logRound3 : ℚ → ℚ) (db : NormalizedDatabase)
    (h : db.database qc.species.name = none) :
    db.contains qc.species.name = false ∧
    db.get_median_log_n50 qc.species.name = .error .notFound ∧
    db.get_median_log_num_contigs qc.species.name = .error .notFound ∧
    db.get_median_log_l50 qc.species.name = .error .notFound ∧
    db.get_median_log_length qc.species.name = .error .notFound ∧
    db.get_median_gc_content qc.species.name = .error .notFound ∧
    qc.normalize_assembly_statistics logRound3 db = .error .notFound := by
  simp [NormalizedDatabase.contains,
    MachineLearningAssemblyQC.normalize_assembly_statistics,
    NormalizedDatabase.get_median_log_n50,
    NormalizedDatabase.get_median_log_num_contigs,
    NormalizedDatabase.get_median_log_l50,
    NormalizedDatabase.get_median_log_length,
    NormalizedDatabase.get_median_gc_content,
    NormalizedDatabase.lookupAttr, h]

/-- Fixture: an ML quality record for a species that
`exampleNormalizedDatabase` does not hold. -/
def exampleUnknownMLQuality : MachineLearningAssemblyQC :=
  ⟨⟨"Pantoea agglomerans", 0.5⟩, 3.7, 1.3, 0.7, 6.5, 0.38⟩

/-- A concrete instance of the C8 theorem: looking up a species missing
from the table fails with the not-found error, and so does
normalization. -/
theorem ml_missing_species_fails_witness :
    exampleNormalizedDatabase.get_median_log_n50 "Pantoea agglomerans" =
      .error .notFound ∧
    exampleUnknownMLQuality.normalize_assembly_statistics id
      exampleNormalizedDatabase = .error .notFound := by
  have h := ml_missing_species_fails exampleUnknownMLQuality id
    exampleNormalizedDatabase (by simp [exampleNormalizedDatabase,
      exampleUnknownMLQuality])
  exact ⟨h.2.1, h.2.2.2.2.2.2⟩

end Proksee
